import Mathlib

/-!
# Verification of the MoveIt trajectory-smoothing core

Shallow embedding, over exact rationals, of the smoothing code in

* `moveit_core/trajectory_processing/src/ruckig_traj_smoothing.cpp`
  (the batch smoother `RuckigSmoothing::applySmoothing`, its segment
  velocity de-rating loop and its duration-extension retry loop);
* `moveit_core/online_signal_smoothing/src/ruckig_filter.cpp`
  (the streaming smoother `RuckigFilterPlugin`);
* `moveit_core/trajectory_processing/src/trackjoint_traj_smoothing.cpp`
  (the seam filter `TrackJointSmoothing::doIterativeLowPassFilter`).

The external Ruckig solver (`ruckig::Ruckig::update`) is a black-box
capability; it is modelled as an arbitrary function from solver inputs to a
status plus an output, quantified over in every theorem that involves it.
`rclcpp::ok()` (ROS process liveness) is modelled as `true`: no external
shutdown is requested during smoothing.  C++ `double` arithmetic is
idealised as exact rational arithmetic, except where the code divides by
zero: there the embedding follows IEEE-754 semantics explicitly (documented
at the definition concerned).
-/

namespace MoveItSmoothing

/-- Kinematic state of one waypoint: per-variable position, velocity and
acceleration arrays (indexed by variable index, as in
`moveit::core::RobotState`). -/
structure RobotState where
  pos : List ℚ
  vel : List ℚ
  acc : List ℚ
deriving DecidableEq

/-- Per-variable kinematic bounds, as in `moveit::core::VariableBounds`:
flags telling whether each bound is defined, plus the (symmetric) magnitudes. -/
structure VariableBounds where
  velocity_bounded : Bool
  max_velocity : ℚ
  acceleration_bounded : Bool
  max_acceleration : ℚ
  jerk_bounded : Bool
  max_jerk : ℚ
deriving DecidableEq

/-- Input struct of the external Ruckig solver (`ruckig::InputParameter`):
current state, target state and kinematic limits, one entry per joint. -/
structure RuckigInput where
  current_position : List ℚ
  current_velocity : List ℚ
  current_acceleration : List ℚ
  target_position : List ℚ
  target_velocity : List ℚ
  target_acceleration : List ℚ
  max_velocity : List ℚ
  max_acceleration : List ℚ
  max_jerk : List ℚ
deriving DecidableEq

/-- Output struct of the external Ruckig solver (`ruckig::OutputParameter`). -/
structure RuckigOutput where
  new_position : List ℚ
  new_velocity : List ℚ
  new_acceleration : List ℚ
deriving DecidableEq

/-- Status reported by `ruckig::Ruckig::update` (`ruckig::Result`).  Per the
spec's ProfileSolver contract, the usable outcomes are `Finished`, `Working`
and `ErrorSynchronizationCalculation` (approximate synchronization); the
`Error code` constructor stands for the family of remaining error variants
(`ErrorInvalidInput`, `ErrorTrajectoryDuration`, ...). -/
inductive RuckigResult where
  | Finished
  | Working
  | ErrorSynchronizationCalculation
  | Error (code : Nat)
deriving DecidableEq

/-- A solver capability: one call of `ruckig.update`, mapping the input
struct to a status and a freshly written output struct.  The real solver is
external to the repository, so theorems quantify over this function. -/
def RuckigSolver : Type := RuckigInput → RuckigResult × RuckigOutput

end MoveItSmoothing

namespace MoveItSmoothing.RuckigFilterPlugin

open MoveItSmoothing

/-- Default jerk bound of the streaming filter
(`ruckig_filter.cpp`: `inline constexpr double DEFAULT_JERK_BOUND = 300`). -/
def DEFAULT_JERK_BOUND : ℚ := 300

/-- The exact value of C++ `DBL_MAX`, used as the fallback acceleration
bound: `(2^53 - 1) * 2^971`. -/
def DBL_MAX : ℚ := (2 ^ 53 - 1) * 2 ^ 971

/-- C's `EXIT_FAILURE`, the argument of the `std::exit` call in
`RuckigFilterPlugin::getVelAccelJerkBounds`. -/
def EXIT_FAILURE : Nat := 1

/-- Embeds `RuckigFilterPlugin::getVelAccelJerkBounds` (ruckig_filter.cpp
lines 139-183).  For each active joint: a missing velocity bound terminates
the whole process via `std::exit(EXIT_FAILURE)` — modelled as
`Except.error EXIT_FAILURE`, which propagates to every caller because the
process is gone; a missing acceleration bound falls back to `DBL_MAX` with a
warning; a missing jerk bound falls back to `DEFAULT_JERK_BOUND` with a
warning.  Returns the three per-joint bound lists in joint order. -/
def getVelAccelJerkBounds : List VariableBounds → Except Nat (List ℚ × List ℚ × List ℚ)
  | [] => Except.ok ([], [], [])
  | b :: rest =>
    if b.velocity_bounded then
      match getVelAccelJerkBounds rest with
      | Except.error c => Except.error c
      | Except.ok (vels, accs, jerks) =>
        Except.ok (b.max_velocity :: vels,
          (if b.acceleration_bounded then b.max_acceleration else DBL_MAX) :: accs,
          (if b.jerk_bounded then b.max_jerk else DEFAULT_JERK_BOUND) :: jerks)
    else Except.error EXIT_FAILURE

/-- Internal state of the streaming filter plugin: the valid-seed flag
`have_initial_ruckig_output_`, the stored solver input `ruckig_input_` and
the stored solver output `ruckig_output_`.  The `std::optional` wrappers of
the C++ members are engaged from `initialize` on (dereferencing them
disengaged is undefined behaviour and outside the model). -/
structure FilterState where
  have_initial_ruckig_output : Bool
  input : RuckigInput
  output : RuckigOutput
deriving DecidableEq

/-- Embeds `RuckigFilterPlugin::initialize` (ruckig_filter.cpp lines 53-81):
fetches the bounds (which may kill the process), then configures the solver
input with the bounds and an all-zero current state, and returns `true`.
The C++ name `initialize` is kept in spirit; the Lean definition is named
`initFilterPlugin`. -/
def initFilterPlugin (joints : List VariableBounds) (numJoints : Nat) :
    Except Nat (FilterState × Bool) :=
  match getVelAccelJerkBounds joints with
  | Except.error c => Except.error c
  | Except.ok (vels, accs, jerks) =>
    Except.ok
      ({ have_initial_ruckig_output := false,
         input :=
          { current_position := List.replicate numJoints 0,
            current_velocity := List.replicate numJoints 0,
            current_acceleration := List.replicate numJoints 0,
            target_position := List.replicate numJoints 0,
            target_velocity := List.replicate numJoints 0,
            target_acceleration := List.replicate numJoints 0,
            max_velocity := vels,
            max_acceleration := accs,
            max_jerk := jerks },
         output :=
          { new_position := List.replicate numJoints 0,
            new_velocity := List.replicate numJoints 0,
            new_acceleration := List.replicate numJoints 0 } },
       true)

/-- Embeds `ruckig::OutputParameter::pass_to_input` (external library,
modelled from the spec: the previous valid output becomes the new current
state fed into the solver). -/
def passToInput (out : RuckigOutput) (inp : RuckigInput) : RuckigInput :=
  { inp with
    current_position := out.new_position,
    current_velocity := out.new_velocity,
    current_acceleration := out.new_acceleration }

/-- The solver input assembled by `RuckigFilterPlugin::doSmoothing` before
calling the solver: feedback of the last output when the valid-seed flag is
set (lines 86-89), then the target position is overwritten with the caller's
commanded positions (line 93); target velocity and acceleration stay at the
zeros set by `initialize`. -/
def streamInput (s : FilterState) (positions : List ℚ) : RuckigInput :=
  let inp0 := if s.have_initial_ruckig_output then passToInput s.output s.input else s.input
  { inp0 with target_position := positions }

/-- The failure test of `doSmoothing` (lines 103-104): every status other
than `Finished`, `Working` and `ErrorSynchronizationCalculation` is a solver
error. -/
def ruckigResultIsError (r : RuckigResult) : Bool :=
  !(r == RuckigResult.Finished) && !(r == RuckigResult.Working) &&
    !(r == RuckigResult.ErrorSynchronizationCalculation)

/-- Result of one `doSmoothing` call: the plugin state afterwards, the three
caller-owned vectors afterwards (the C++ passes them by reference), and the
boolean return value. -/
structure DoSmoothingResult where
  state : FilterState
  positions : List ℚ
  velocities : List ℚ
  accelerations : List ℚ
  retval : Bool
deriving DecidableEq

/-- Embeds `RuckigFilterPlugin::doSmoothing` (ruckig_filter.cpp lines
83-124).  On a solver error the caller's vectors are left untouched, the
valid-seed flag is cleared, and the call still returns `true`; otherwise the
vectors are overwritten with the solver output, the flag is set, and the
call returns `true`.  In both branches the stored output member holds what
`update` wrote into it. -/
def doSmoothing (solver : RuckigSolver) (s : FilterState)
    (positions velocities accelerations : List ℚ) : DoSmoothingResult :=
  let inp := streamInput s positions
  let ro := solver inp
  if ruckigResultIsError ro.1 then
    { state := { have_initial_ruckig_output := false, input := inp, output := ro.2 },
      positions := positions, velocities := velocities, accelerations := accelerations,
      retval := true }
  else
    { state := { have_initial_ruckig_output := true, input := inp, output := ro.2 },
      positions := ro.2.new_position, velocities := ro.2.new_velocity,
      accelerations := ro.2.new_acceleration, retval := true }

end MoveItSmoothing.RuckigFilterPlugin

namespace MoveItSmoothing.RuckigSmoothing

open MoveItSmoothing

/-- Joint-group information the batch smoother reads from the trajectory's
`JointModelGroup`: the variable index list (`getVariableIndexList`) and, per
group variable, the kinematic bounds fetched from the parent robot model. -/
structure GroupInfo where
  idx : List Nat
  bounds : List VariableBounds
deriving DecidableEq

/-- A `robot_trajectory::RobotTrajectory`: its joint-group association
(`getGroup` may be null), its waypoints and the per-waypoint
duration-from-previous values (index-aligned with the waypoints; entry 0
belongs to the first waypoint).  Copying and assignment are modelled as
value (deep) copies; the spec describes the saved trajectory as "a mutable
copy of the full trajectory (to allow rollback)". -/
structure RobotTrajectory where
  group : Option GroupInfo
  waypoints : List RobotState
  durations : List ℚ
deriving DecidableEq

/-- Constants of ruckig_traj_smoothing.cpp lines 49-52. -/
def DEFAULT_MAX_VELOCITY : ℚ := 5

/-- Default acceleration bound (line 50). -/
def DEFAULT_MAX_ACCELERATION : ℚ := 10

/-- Default jerk bound (line 51). -/
def DEFAULT_MAX_JERK : ℚ := 20

/-- Identical-waypoint position epsilon (line 52), 1e-3 rad. -/
def IDENTICAL_POSITION_EPSILON : ℚ := 1 / 1000

/-- Retry budget of the duration-extension loop (line 53). -/
def MAX_DURATION_EXTENSION_ATTEMPTS : Nat := 5

/-- The duration growth factor, ruckig_traj_smoothing.cpp line 54:
`constexpr size_t DURATION_EXTENSION_FRACTION = 1.1;`.  The constant is
declared with the unsigned integer type `size_t`, so the C++
floating-to-integral conversion truncates the literal `1.1` toward zero and
the compiled constant is `1`, not `1.1`.  The literal `1.1` is the exact
binary double closest to 11/10; truncating it toward zero is the integer
division of 11 by 10 (on this positive value Lean's integer division
agrees with the C++ truncation toward zero). -/
def DURATION_EXTENSION_FRACTION : ℤ := (11 : ℤ) / 10

/-- Floor of the minimum target-velocity magnitude of the de-rating loop
(line 138), 0.01 rad/s. -/
def MINIMUM_VELOCITY_MAGNITUDE : ℚ := 1 / 100

/-- Embeds `RuckigSmoothing::checkForIdenticalWaypoints` (lines 233-254).
The source compares `sqrt(sum of squared position differences)` against
`IDENTICAL_POSITION_EPSILON` and returns `true` when the magnitude does not
exceed the epsilon.  Both sides being nonnegative and the square root being
strictly monotone, `sqrt s <= eps` is equivalent to `s <= eps ^ 2`; the
embedding compares the squares to stay inside the rationals. -/
def checkForIdenticalWaypoints (prev next : RobotState) (numDof : Nat)
    (idx : List Nat) : Bool :=
  let magSq :=
    ((List.range numDof).map fun j =>
      (prev.pos.getD (idx.getD j 0) 0 - next.pos.getD (idx.getD j 0) 0) ^ 2).sum
  decide (magSq ≤ IDENTICAL_POSITION_EPSILON ^ 2)

/-- The squared Euclidean target-velocity magnitude.
`RuckigSmoothing::getTargetVelocityMagnitude` (lines 256-264) returns the
square root of this sum; it is only ever compared against
`MINIMUM_VELOCITY_MAGNITUDE`, and `sqrt s > m` is equivalent to
`s > m ^ 2` for nonnegative `s` and `m`, so the embedding keeps the
square. -/
def targetVelocityMagnitudeSq (targetVel : List ℚ) (numDof : Nat) : ℚ :=
  ((List.range numDof).map fun j => targetVel.getD j 0 * targetVel.getD j 0).sum

/-- The per-joint lag test of `RuckigSmoothing::checkForLaggingMotion`
(line 273): the C++ computes `new_velocity / target_velocity < 1` on
`double`s with no guard on the divisor.  When the target velocity is zero
(a stored `+0.0`), IEEE-754 gives `newV / 0.0 = -inf` for `newV < 0`
(comparison with 1 is true), `+inf` for `newV > 0` (false), and `NaN` for
`newV = 0` (every comparison false); so the exact branch condition at a zero
target is `newV < 0`.  For a nonzero target the quotient is exact rational
division. -/
def laggingRatioLtOne (newV targetV : ℚ) : Bool :=
  if targetV = 0 then decide (newV < 0) else decide (newV / targetV < 1)

/-- Embeds `RuckigSmoothing::checkForLaggingMotion` (lines 266-279): scans
the joints in order and reports lag as soon as one joint's
new-velocity-to-target-velocity ratio is below 1 (IEEE semantics at a zero
target, see `laggingRatioLtOne`). -/
def checkForLaggingMotion (numDof : Nat) (newVel targetVel : List ℚ) : Bool :=
  (List.range numDof).any fun j =>
    laggingRatioLtOne (newVel.getD j 0) (targetVel.getD j 0)

/-- Embeds `RuckigSmoothing::getNextCurrentTargetStates` (lines 281-298):
the previous output becomes the current state, and the next waypoint (read
through the variable index list) becomes the target state. -/
def getNextCurrentTargetStates (input : RuckigInput) (output : RuckigOutput)
    (next : RobotState) (numDof : Nat) (idx : List Nat) : RuckigInput :=
  { input with
    current_position := (List.range numDof).map fun j => output.new_position.getD j 0,
    current_velocity := (List.range numDof).map fun j => output.new_velocity.getD j 0,
    current_acceleration := (List.range numDof).map fun j => output.new_acceleration.getD j 0,
    target_position := (List.range numDof).map fun j => next.pos.getD (idx.getD j 0) 0,
    target_velocity := (List.range numDof).map fun j => next.vel.getD (idx.getD j 0) 0,
    target_acceleration := (List.range numDof).map fun j => next.acc.getD (idx.getD j 0) 0 }

/-- Embeds `RuckigSmoothing::initializeRuckigState` (lines 209-231; the C++
name cannot be used verbatim here): the solver input's current state is read
from the first waypoint through the variable index list, and the output is
seeded with the same values. -/
def initRuckigState (input : RuckigInput) (first : RobotState) (numDof : Nat)
    (idx : List Nat) : RuckigInput × RuckigOutput :=
  let cp := (List.range numDof).map fun i => first.pos.getD (idx.getD i 0) 0
  let cv := (List.range numDof).map fun i => first.vel.getD (idx.getD i 0) 0
  let ca := (List.range numDof).map fun i => first.acc.getD (idx.getD i 0) 0
  ({ input with current_position := cp, current_velocity := cv, current_acceleration := ca },
   { new_position := cp, new_velocity := cv, new_acceleration := ca })

/-- Embeds the kinematic-limit setup of `applySmoothing` (lines 93-117):
jerk always takes the constant default; velocity and acceleration take the
scaled model bound when one is defined and the scaled default otherwise. -/
def applyKinematicLimits (input : RuckigInput) (bounds : List VariableBounds)
    (velScale accScale : ℚ) (numDof : Nat) : RuckigInput :=
  { input with
    max_jerk := List.replicate numDof DEFAULT_MAX_JERK,
    max_velocity := (List.range numDof).map fun i =>
      let b := bounds.getD i ⟨false, 0, false, 0, false, 0⟩
      if b.velocity_bounded then velScale * b.max_velocity else velScale * DEFAULT_MAX_VELOCITY,
    max_acceleration := (List.range numDof).map fun i =>
      let b := bounds.getD i ⟨false, 0, false, 0, false, 0⟩
      if b.acceleration_bounded then accScale * b.max_acceleration
      else accScale * DEFAULT_MAX_ACCELERATION }

/-- The all-zero solver input a fresh `ruckig::InputParameter` holds before
the limits and the current state are filled in. -/
def emptyRuckigInput (numDof : Nat) : RuckigInput :=
  { current_position := List.replicate numDof 0,
    current_velocity := List.replicate numDof 0,
    current_acceleration := List.replicate numDof 0,
    target_position := List.replicate numDof 0,
    target_velocity := List.replicate numDof 0,
    target_acceleration := List.replicate numDof 0,
    max_velocity := List.replicate numDof 0,
    max_acceleration := List.replicate numDof 0,
    max_jerk := List.replicate numDof 0 }

/-- State of the velocity de-rating loop of `applySmoothing` (lines
136-165): the solver input and output, the last solver status, the
backward-motion flag, and the target waypoint (which the identical-waypoint
branch overwrites in place). -/
structure DerateState where
  input : RuckigInput
  output : RuckigOutput
  result : RuckigResult
  backward : Bool
  next : RobotState
deriving DecidableEq

/-- Loop guard of the de-rating loop (line 140): lag detected and the
target-velocity magnitude still above the floor (squares compared, see
`targetVelocityMagnitudeSq`); `rclcpp::ok()` is modelled as `true`. -/
def derateCond (numDof : Nat) (s : DerateState) : Bool :=
  s.backward &&
    decide (targetVelocityMagnitudeSq s.input.target_velocity numDof >
      MINIMUM_VELOCITY_MAGNITUDE ^ 2)

/-- One iteration body plus loop control of the velocity de-rating loop
(lines 140-165), with explicit fuel.  While the guard holds: if the previous
and target waypoints are identical within the position epsilon, the target
waypoint is overwritten with the previous one and the loop `continue`s —
leaving the guard variables untouched; otherwise every joint's target
velocity is scaled by 0.9, the target acceleration is recomputed from the
previous solver output, the solver runs again and the lag flag is
refreshed.  Returns the final state and `true` when the loop exited through
its guard, `false` when the fuel ran out first. -/
def derateLoop (solver : RuckigSolver) (timestep : ℚ) (numDof : Nat)
    (idx : List Nat) (prev : RobotState) : Nat → DerateState → DerateState × Bool
  | 0, s => (s, false)
  | Nat.succ fuel, s =>
    if derateCond numDof s then
      if checkForIdenticalWaypoints prev s.next numDof idx then
        derateLoop solver timestep numDof idx prev fuel { s with next := prev }
      else
        let tv := (List.range numDof).map fun j => 9 / 10 * s.input.target_velocity.getD j 0
        let ta := (List.range numDof).map fun j =>
          (tv.getD j 0 - s.output.new_velocity.getD j 0) / timestep
        let input1 := { s.input with target_velocity := tv, target_acceleration := ta }
        let ro := solver input1
        let backward1 := checkForLaggingMotion numDof ro.2.new_velocity input1.target_velocity
        derateLoop solver timestep numDof idx prev fuel
          { input := input1, output := ro.2, result := ro.1, backward := backward1, next := s.next }
    else (s, true)

/-- Writes the solver output into the target waypoint (lines 168-174):
position, velocity and acceleration of each joint, through the variable
index list. -/
def writeOutput (numDof : Nat) (idx : List Nat) (out : RuckigOutput)
    (w : RobotState) : RobotState :=
  (List.range numDof).foldl
    (fun st j =>
      { pos := st.pos.set (idx.getD j 0) (out.new_position.getD j 0),
        vel := st.vel.set (idx.getD j 0) (out.new_velocity.getD j 0),
        acc := st.acc.set (idx.getD j 0) (out.new_acceleration.getD j 0) })
    w

/-- Running state of one full smoothing pass: the waypoint list being
rewritten in place, the persistent solver input/output structs, and the last
solver status (`ruckig_result`). -/
structure PassState where
  wps : List RobotState
  input : RuckigInput
  output : RuckigOutput
  result : RuckigResult
deriving DecidableEq

/-- One segment of the smoothing pass (body of the `for` loop at lines
125-175): fetch the next waypoint as target, run the solver once, run the
velocity de-rating loop, then overwrite the target waypoint with the final
solver output. -/
def passSegment (solver : RuckigSolver) (timestep : ℚ) (numDof : Nat)
    (idx : List Nat) (innerFuel : Nat) (s : PassState) (wpIdx : Nat) : PassState :=
  let next := s.wps.getD (wpIdx + 1) ⟨[], [], []⟩
  let input1 := getNextCurrentTargetStates s.input s.output next numDof idx
  let ro := solver input1
  let backward := checkForLaggingMotion numDof ro.2.new_velocity input1.target_velocity
  let prev := s.wps.getD wpIdx ⟨[], [], []⟩
  let ds :=
    (derateLoop solver timestep numDof idx prev innerFuel
      { input := input1, output := ro.2, result := ro.1, backward := backward, next := next }).1
  { wps := s.wps.set (wpIdx + 1) (writeOutput numDof idx ds.output ds.next),
    input := ds.input, output := ds.output, result := ds.result }

/-- One full pass of the smoother over all `numWaypoints - 1` segments
(the `for` loop at lines 125-175). -/
def smoothingPass (solver : RuckigSolver) (timestep : ℚ) (numDof : Nat)
    (idx : List Nat) (innerFuel numWaypoints : Nat) (wps : List RobotState)
    (input : RuckigInput) (output : RuckigOutput) (result : RuckigResult) : PassState :=
  (List.range (numWaypoints - 1)).foldl (passSegment solver timestep numDof idx innerFuel)
    { wps := wps, input := input, output := output, result := result }

/-- Embeds the duration-stretch loop of the failure branch (lines 189-194):
`setWayPointDurationFromPrevious(i, DURATION_EXTENSION_FRACTION * ...)` for
every waypoint index `i` with `1 <= i < numWaypoints`.  The first argument
is the running index of the head of the list. -/
def stretchDurations (numWaypoints : Nat) : Nat → List ℚ → List ℚ
  | _, [] => []
  | i, d :: ds =>
    (if 1 ≤ i ∧ i < numWaypoints then (DURATION_EXTENSION_FRACTION : ℚ) * d else d) ::
      stretchDurations numWaypoints (i + 1) ds

/-- Embeds the duration-extension retry loop of `applySmoothing` (lines
119-197), with the remaining attempt budget as the structural argument
(`rclcpp::ok()` modelled as `true`).  Each round runs a full pass; on
`Working` the smoothed trajectory is kept (`smoothing_complete`); on any
other status the trajectory is restored from the saved pre-loop copy
`origCopy`, the solver state is re-seeded from the restored first waypoint,
the durations are stretched once, the attempt counter is bumped and the
loop continues.  Returns the final trajectory, the final `ruckig_result`
and the number of duration-extension attempts performed. -/
def retryLoop (solver : RuckigSolver) (timestep : ℚ) (numDof : Nat)
    (idx : List Nat) (innerFuel numWaypoints : Nat) (origCopy : RobotTrajectory) :
    Nat → RobotTrajectory → RuckigInput → RuckigOutput → RuckigResult →
      RobotTrajectory × RuckigResult × Nat
  | 0, t, _, _, r => (t, r, 0)
  | Nat.succ budget, t, inp, out, r =>
    let ps := smoothingPass solver timestep numDof idx innerFuel numWaypoints t.waypoints inp out r
    if ps.result = RuckigResult.Working then
      ({ t with waypoints := ps.wps }, ps.result, 0)
    else
      let io := initRuckigState ps.input (origCopy.waypoints.getD 0 ⟨[], [], []⟩) numDof idx
      let restored : RobotTrajectory :=
        { group := origCopy.group, waypoints := origCopy.waypoints,
          durations := stretchDurations numWaypoints 0 origCopy.durations }
      let rec1 := retryLoop solver timestep numDof idx innerFuel numWaypoints origCopy
        budget restored io.1 io.2 ps.result
      (rec1.1, rec1.2.1, rec1.2.2 + 1)

/-- The average segment duration used as the solver timestep (line 81).
Modelled from the spec: `getAverageSegmentDuration` belongs to the external
trajectory store (its implementation is not among the sources); the total
of the duration-from-previous values of waypoints 1..n-1 divided by the
number of segments.  The claims under verification do not depend on this
value. -/
def averageSegmentDuration (t : RobotTrajectory) : ℚ :=
  (t.durations.drop 1).sum / ((t.waypoints.length - 1 : Nat) : ℚ)

/-- Result of `RuckigSmoothing::applySmoothing`: the boolean return value,
the trajectory as left by the call (it is passed by reference), the number
of duration-extension attempts performed, and the final solver status
(`none` when the call returned before any solver invocation). -/
structure SmoothResult where
  success : Bool
  traj : RobotTrajectory
  attempts : Nat
  result : Option RuckigResult
deriving DecidableEq

/-- Embeds `RuckigSmoothing::applySmoothing` (lines 57-207).  Guard
failures (no joint group, fewer than two waypoints) return `false` at once.
Otherwise the path is unwound (`unwind` is the external trajectory-store
capability, quantified over), the solver state is seeded from the first
waypoint, a pristine copy of the (unwound) trajectory is saved, and the
duration-extension retry loop runs with budget
`MAX_DURATION_EXTENSION_ATTEMPTS`; the call succeeds exactly when the final
solver status is `Working`.  The `RuckigResult.Error 0` seeding the loop
stands for the uninitialised C++ local `ruckig_result`, which is unread
whenever the trajectory has at least two waypoints. -/
def applySmoothing (solver : RuckigSolver) (unwind : List RobotState → List RobotState)
    (innerFuel : Nat) (traj : RobotTrajectory) (velScale accScale : ℚ) : SmoothResult :=
  match traj.group with
  | none => { success := false, traj := traj, attempts := 0, result := none }
  | some g =>
    let numWaypoints := traj.waypoints.length
    if numWaypoints < 2 then { success := false, traj := traj, attempts := 0, result := none }
    else
      let numDof := g.idx.length
      let unwound : RobotTrajectory := { traj with waypoints := unwind traj.waypoints }
      let timestep := averageSegmentDuration unwound
      let input0 := applyKinematicLimits (emptyRuckigInput numDof) g.bounds velScale accScale numDof
      let io := initRuckigState input0 (unwound.waypoints.getD 0 ⟨[], [], []⟩) numDof g.idx
      let rl := retryLoop solver timestep numDof g.idx innerFuel numWaypoints unwound
        MAX_DURATION_EXTENSION_ATTEMPTS unwound io.1 io.2 (RuckigResult.Error 0)
      { success := decide (rl.2.1 = RuckigResult.Working), traj := rl.1,
        attempts := rl.2.2, result := some rl.2.1 }

end MoveItSmoothing.RuckigSmoothing

namespace MoveItSmoothing.TrackJointSmoothing

open MoveItSmoothing

/-- TrackJoint timestep constant (trackjoint_traj_smoothing.cpp line 52),
0.001 s. -/
def DEFAULT_TRACKJOINT_TIMESTEP : ℚ := 1 / 1000

/-- Per-joint kinematic limits handed to TrackJoint (`trackjoint::Limits`). -/
structure TJLimits where
  velocity_limit : ℚ
  acceleration_limit : ℚ
  jerk_limit : ℚ
deriving DecidableEq

/-- The per-joint discontinuity bound of `doIterativeLowPassFilter` (lines
193-196): `v*dt + 0.5*a*dt^2 + 0.16667*j*dt^3` with `dt` the fixed
TrackJoint timestep (the source writes the literal `0.16667`, not 1/6). -/
def maxPositionDiscontinuity (lim : TJLimits) : ℚ :=
  lim.velocity_limit * DEFAULT_TRACKJOINT_TIMESTEP +
    1 / 2 * lim.acceleration_limit * DEFAULT_TRACKJOINT_TIMESTEP * DEFAULT_TRACKJOINT_TIMESTEP +
    16667 / 100000 * lim.jerk_limit * DEFAULT_TRACKJOINT_TIMESTEP ^ 3

/-- One joint's sweep of the waypoint filtering loop (lines 199-225),
recursing over the waypoints from index 1 on.  `stepF` is the low-pass
filter's update (`ButterworthFilter::filter`); its implementation lives in
`moveit/online_signal_smoothing/butterworth_filter.h`, which is not among
the sources, so the sweep is parameterised by an arbitrary filter state
type and update function.  `prevPos` is the previous waypoint's position at
this joint — already overwritten with its own filtered value, exactly as the
in-place C++ loop reads it.  Each waypoint's position is replaced by the
filtered value; a discontinuity whose magnitude exceeds the bound's
magnitude only bumps the failure count. -/
def filterJoint {σ : Type} (stepF : σ → ℚ → σ × ℚ) (jidx : Nat) (bound : ℚ) :
    σ → ℚ → List RobotState → List RobotState × Nat
  | _, _, [] => ([], 0)
  | st, prevPos, w :: ws =>
    let fo := stepF st (w.pos.getD jidx 0)
    let w1 := { w with pos := w.pos.set jidx fo.2 }
    let fail := if |fo.2 - prevPos| > |bound| then 1 else 0
    let rest := filterJoint stepF jidx bound fo.1 fo.2 ws
    (w1 :: rest.1, fail + rest.2)

/-- The per-joint step of the outer loop of `doIterativeLowPassFilter`
(lines 186-227): build a fresh filter seeded with the first waypoint's
position at this joint (`filterNew` models constructing the
`ButterworthFilter` and calling `reset`), compute the joint's discontinuity
bound from its limits, and sweep the waypoints from index 1 on.  The first
waypoint is never overwritten. -/
def filterPassStep {σ : Type} (filterNew : ℚ → σ) (stepF : σ → ℚ → σ × ℚ)
    (limits : List TJLimits) (jidxs : List Nat) (s : List RobotState × Nat)
    (jointIdx : Nat) : List RobotState × Nat :=
  match s.1 with
  | [] => s
  | w0 :: ws =>
    let jidx := jidxs.getD jointIdx 0
    let firstPos := w0.pos.getD jidx 0
    let bound := maxPositionDiscontinuity (limits.getD jointIdx ⟨0, 0, 0⟩)
    let fr := filterJoint stepF jidx bound (filterNew firstPos) firstPos ws
    (w0 :: fr.1, s.2 + fr.2)

/-- Result of `doIterativeLowPassFilter`: the trajectory waypoints after
filtering, the accumulated failure count `num_failures`, and the boolean
return value. -/
structure FilterPassResult where
  wps : List RobotState
  num_failures : Nat
  retval : Bool
deriving DecidableEq

/-- Embeds `TrackJointSmoothing::doIterativeLowPassFilter` (lines 180-231):
for each joint in turn, low-pass filter every waypoint position in place and
count (but only count) discontinuity-bound violations; the function returns
`true` unconditionally (line 230), so the pass is never aborted. -/
def doIterativeLowPassFilter {σ : Type} (filterNew : ℚ → σ) (stepF : σ → ℚ → σ × ℚ)
    (numDof : Nat) (jidxs : List Nat) (limits : List TJLimits)
    (wps : List RobotState) : FilterPassResult :=
  let res := (List.range numDof).foldl (filterPassStep filterNew stepF limits jidxs) (wps, 0)
  { wps := res.1, num_failures := res.2, retval := true }

end MoveItSmoothing.TrackJointSmoothing

namespace MoveItSmoothing.Examples

open MoveItSmoothing MoveItSmoothing.RuckigSmoothing MoveItSmoothing.RuckigFilterPlugin

/-- A one-variable waypoint at rest at the origin. -/
def zeroState : RobotState := ⟨[0], [0], [0]⟩

/-- A one-joint group: variable index list `[0]`, all bounds defined as 1. -/
def oneJointGroup : GroupInfo := ⟨[0], [⟨true, 1, true, 1, true, 1⟩]⟩

/-- A two-waypoint, one-joint trajectory from position 0 to position 1 with
segment duration 1. -/
def twoPointTraj : RobotTrajectory :=
  ⟨some oneJointGroup, [zeroState, ⟨[1], [0], [0]⟩], [0, 1]⟩

/-- A solver that always fails: every call reports an error status and
writes position 5, velocity 0, acceleration 0 — standing for a trajectory
whose duration is kinematically infeasible at the given limits. -/
def failSolver : RuckigSolver := fun _ => (RuckigResult.Error 0, ⟨[5], [0], [0]⟩)

/-- A solver that always reports `Working` and writes position 5. -/
def workSolver : RuckigSolver := fun _ => (RuckigResult.Working, ⟨[5], [0], [0]⟩)

/-- The solver input seeded by `applySmoothing` for `twoPointTraj` before
the first attempt: limits applied, current state read from the first
waypoint. -/
def seedInput : RuckigInput :=
  (initRuckigState (applyKinematicLimits (emptyRuckigInput 1) oneJointGroup.bounds 1 1 1)
    zeroState 1 [0]).1

/-- The solver output seeded alongside `seedInput`. -/
def seedOutput : RuckigOutput :=
  (initRuckigState (applyKinematicLimits (emptyRuckigInput 1) oneJointGroup.bounds 1 1 1)
    zeroState 1 [0]).2

/-- A de-rating loop state for a degenerate segment whose start and target
waypoints coincide (both `zeroState`) while the stored target velocity is 1:
lag has been detected (consistent with a solver output of new velocity 0,
since 0/1 < 1) and the target-velocity magnitude 1 is above the 0.01
floor. -/
def duplicateDerateState : DerateState :=
  { input :=
      { current_position := [0], current_velocity := [0], current_acceleration := [0],
        target_position := [0], target_velocity := [1], target_acceleration := [0],
        max_velocity := [1], max_acceleration := [1], max_jerk := [20] },
    output := ⟨[0], [0], [0]⟩,
    result := RuckigResult.Error 0,
    backward := true,
    next := zeroState }

/-- A one-joint streaming-filter state with the valid-seed flag cleared. -/
def plainFilterState : FilterState :=
  ⟨false, RuckigSmoothing.emptyRuckigInput 1, ⟨[0], [0], [0]⟩⟩

/-- A solver whose every call reports an unusable error status. -/
def errSolver : RuckigSolver := fun _ => (RuckigResult.Error 7, ⟨[9], [8], [7]⟩)

/-- Joint bounds with no velocity limit defined. -/
def noVelBounds : VariableBounds := ⟨false, 0, false, 0, false, 0⟩

/-- Joint bounds with all three limits defined. -/
def fullBounds : VariableBounds := ⟨true, 2, true, 3, true, 4⟩

end MoveItSmoothing.Examples

namespace MoveItSmoothing

open MoveItSmoothing.RuckigFilterPlugin MoveItSmoothing.RuckigSmoothing
open MoveItSmoothing.TrackJointSmoothing MoveItSmoothing.Examples

/-- Claim C10: for every solver behaviour, input vectors and internal
state, `RuckigFilterPlugin::doSmoothing` returns `true`; the boolean return
value is constant and never communicates failure, so callers cannot tell a
smoothed output from a held-unmodified output by the return value alone. -/
theorem doSmoothing_always_returns_true (solver : RuckigSolver) (s : FilterState)
    (p v a : List ℚ) : (doSmoothing solver s p v a).retval = true := by
  cases h : ruckigResultIsError (solver (streamInput s p)).1 <;>
    simp [doSmoothing, h]

/-- Claim C5: when the solver reports any status other than the three
usable outcomes, `RuckigFilterPlugin::doSmoothing` leaves the caller's
position, velocity and acceleration vectors unmodified, clears the
valid-seed flag, and still returns `true`. -/
theorem doSmoothing_error_holds_state (solver : RuckigSolver) (s : FilterState)
    (p v a : List ℚ) (h : ruckigResultIsError (solver (streamInput s p)).1 = true) :
    (doSmoothing solver s p v a).positions = p ∧
    (doSmoothing solver s p v a).velocities = v ∧
    (doSmoothing solver s p v a).accelerations = a ∧
    (doSmoothing solver s p v a).state.have_initial_ruckig_output = false ∧
    (doSmoothing solver s p v a).retval = true := by
  refine ⟨?_, ?_, ?_, ?_, ?_⟩ <;> simp [doSmoothing, h]

/-- Witness for `doSmoothing_error_holds_state`: a solver that reports
`Error 7` on every input indeed leaves the vectors `[1]`, `[2]`, `[3]`
untouched, clears the seed flag and returns `true`. -/
theorem doSmoothing_error_holds_state_witness :
    (doSmoothing errSolver plainFilterState [1] [2] [3]).positions = [1] ∧
    (doSmoothing errSolver plainFilterState [1] [2] [3]).velocities = [2] ∧
    (doSmoothing errSolver plainFilterState [1] [2] [3]).accelerations = [3] ∧
    (doSmoothing errSolver plainFilterState [1] [2] [3]).state.have_initial_ruckig_output = false ∧
    (doSmoothing errSolver plainFilterState [1] [2] [3]).retval = true :=
  doSmoothing_error_holds_state errSolver plainFilterState [1] [2] [3] (by decide)

/-- Counterexample to claim C7: a single joint with no velocity limit makes
`RuckigFilterPlugin::initialize` terminate the whole process through
`std::exit(EXIT_FAILURE)` — no error result is handed back to the caller,
contrary to the claim that `initialize` returns failure. -/
theorem initFilterPlugin_missing_velocity_exits :
    initFilterPlugin [noVelBounds] 1 = Except.error EXIT_FAILURE := rfl

/-- Claim C7 as amended: a joint lacking a velocity limit causes a process
exit with `EXIT_FAILURE` rather than a failure return; whenever
`initialize` does return, it returns `true`; and with all velocity limits
present, a missing acceleration limit falls back to `DBL_MAX` and a missing
jerk limit to the default 300 rad/s^3, without failure. -/
theorem initFilterPlugin_spec (joints : List VariableBounds) (n : Nat) :
    ((∃ b ∈ joints, b.velocity_bounded = false) →
      initFilterPlugin joints n = Except.error EXIT_FAILURE) ∧
    ((∀ b ∈ joints, b.velocity_bounded = true) →
      ∃ s, initFilterPlugin joints n = Except.ok (s, true)) ∧
    ((∀ b ∈ joints, b.velocity_bounded = true) →
      getVelAccelJerkBounds joints = Except.ok
        (joints.map VariableBounds.max_velocity,
         joints.map (fun b => if b.acceleration_bounded then b.max_acceleration else DBL_MAX),
         joints.map (fun b => if b.jerk_bounded then b.max_jerk else DEFAULT_JERK_BOUND))) := by
  have hbounds : ∀ (l : List VariableBounds), (∀ b ∈ l, b.velocity_bounded = true) →
      getVelAccelJerkBounds l = Except.ok
        (l.map VariableBounds.max_velocity,
         l.map (fun b => if b.acceleration_bounded then b.max_acceleration else DBL_MAX),
         l.map (fun b => if b.jerk_bounded then b.max_jerk else DEFAULT_JERK_BOUND)) := by
    intro l
    induction l with
    | nil => intro _; rfl
    | cons b rest ih =>
      intro hall
      have hb : b.velocity_bounded = true := hall b (List.mem_cons_self b rest)
      have hrest := ih (fun x hx => hall x (List.mem_cons_of_mem b hx))
      simp [getVelAccelJerkBounds, hb, hrest]
  have herr : ∀ (l : List VariableBounds), (∃ b ∈ l, b.velocity_bounded = false) →
      getVelAccelJerkBounds l = Except.error EXIT_FAILURE := by
    intro l
    induction l with
    | nil => rintro ⟨b, hb, -⟩; exact absurd hb (List.not_mem_nil b)
    | cons b rest ih =>
      rintro ⟨x, hx, hxf⟩
      by_cases hb : b.velocity_bounded = true
      · have hxr : x ∈ rest := by
          rcases List.mem_cons.mp hx with h | h
          · subst h; rw [hb] at hxf; cases hxf
          · exact h
        have := ih ⟨x, hxr, hxf⟩
        simp [getVelAccelJerkBounds, hb, this]
      · simp [getVelAccelJerkBounds, hb]
  refine ⟨?_, ?_, fun h => hbounds joints h⟩
  · intro h
    simp [initFilterPlugin, herr joints h]
  · intro h
    simp only [initFilterPlugin, hbounds joints h]
    exact ⟨_, rfl⟩

/-- Witness for `initFilterPlugin_spec`: both hypotheses discharged at
concrete joint lists — a missing velocity limit exits the process, and a
fully bounded joint yields a `true` return. -/
theorem initFilterPlugin_spec_witness :
    initFilterPlugin [fullBounds, noVelBounds] 2 = Except.error EXIT_FAILURE ∧
    ∃ s, initFilterPlugin [fullBounds] 1 = Except.ok (s, true) :=
  ⟨(initFilterPlugin_spec [fullBounds, noVelBounds] 2).1
      ⟨noVelBounds, by simp, rfl⟩,
   (initFilterPlugin_spec [fullBounds] 1).2.1
      (by intro b hb; rw [List.mem_singleton.mp hb]; rfl)⟩

/-- Counterexample to claim C8: a joint whose target velocity is zero and
whose solver-output velocity is negative makes
`RuckigSmoothing::checkForLaggingMotion` report lag (the C++ forms
`-1 / 0.0 = -inf`, and `-inf < 1` holds), contradicting the claim that a
zero-target joint never causes lag to be reported. -/
theorem checkForLaggingMotion_zero_target :
    checkForLaggingMotion 1 [-1] [0] = true := by decide

/-- Helper: the exact Boolean produced by the per-joint lag test. -/
theorem laggingRatioLtOne_eq_true_iff (a b : ℚ) :
    laggingRatioLtOne a b = true ↔ (b ≠ 0 ∧ a / b < 1) ∨ (b = 0 ∧ a < 0) := by
  by_cases hb : b = 0
  · simp [laggingRatioLtOne, hb]
  · simp [laggingRatioLtOne, hb]

/-- Claim C8 as amended: `checkForLaggingMotion` reports lag exactly when
some joint has new-velocity-to-target-velocity ratio below 1 under IEEE
division semantics — for a nonzero target this is the exact rational ratio,
and for a zero target the quotient is an infinity whose comparison with 1
holds exactly when the new velocity is negative.  The ratio is formed for
every joint, a zero target included. -/
theorem checkForLaggingMotion_iff (numDof : Nat) (newVel targetVel : List ℚ) :
    checkForLaggingMotion numDof newVel targetVel = true ↔
      ∃ j < numDof,
        (targetVel.getD j 0 ≠ 0 ∧ newVel.getD j 0 / targetVel.getD j 0 < 1) ∨
        (targetVel.getD j 0 = 0 ∧ newVel.getD j 0 < 0) := by
  simp [checkForLaggingMotion, List.any_eq_true, List.mem_range,
    laggingRatioLtOne_eq_true_iff]

end MoveItSmoothing

namespace MoveItSmoothing.TrackJointSmoothing

open MoveItSmoothing

/-- Helper: the waypoints a joint sweep produces do not depend on the
discontinuity bound — the bound feeds only the failure counter. -/
theorem filterJoint_wps_bound_indep {σ : Type} (stepF : σ → ℚ → σ × ℚ)
    (jidx : Nat) (b b' : ℚ) :
    ∀ (ws : List RobotState) (st : σ) (prevPos : ℚ),
      (filterJoint stepF jidx b st prevPos ws).1 =
      (filterJoint stepF jidx b' st prevPos ws).1 := by
  intro ws
  induction ws with
  | nil => intro st p; rfl
  | cons w rest ih =>
    intro st p
    simp only [filterJoint]
    exact congrArg (List.cons _) (ih _ _)

/-- Helper: one per-joint step keeps the waypoint component independent of
the limit list, for any two states agreeing on their waypoints. -/
theorem filterPassStep_wps_indep {σ : Type} (filterNew : ℚ → σ)
    (stepF : σ → ℚ → σ × ℚ) (limits limits2 : List TJLimits) (jidxs : List Nat) :
    ∀ (s s' : List RobotState × Nat) (j : Nat), s.1 = s'.1 →
      (filterPassStep filterNew stepF limits jidxs s j).1 =
      (filterPassStep filterNew stepF limits2 jidxs s' j).1 := by
  rintro ⟨ws, cnt⟩ ⟨ws', cnt'⟩ j h
  dsimp only at h
  subst h
  cases ws with
  | nil => rfl
  | cons w0 rest =>
    simp only [filterPassStep]
    exact congrArg (List.cons _) (filterJoint_wps_bound_indep stepF _ _ _ rest _ _)

/-- Helper: the full per-joint fold keeps the waypoint component independent
of the limit list. -/
theorem filterFold_wps_indep {σ : Type} (filterNew : ℚ → σ)
    (stepF : σ → ℚ → σ × ℚ) (limits limits2 : List TJLimits) (jidxs : List Nat) :
    ∀ (l : List Nat) (s s' : List RobotState × Nat), s.1 = s'.1 →
      (l.foldl (filterPassStep filterNew stepF limits jidxs) s).1 =
      (l.foldl (filterPassStep filterNew stepF limits2 jidxs) s').1 := by
  intro l
  induction l with
  | nil => intro s s' h; exact h
  | cons j rest ih =>
    intro s s' h
    simp only [List.foldl_cons]
    exact ih _ _ (filterPassStep_wps_indep filterNew stepF limits limits2 jidxs s s' j h)

/-- Claim C9: a discontinuity exceeding the per-joint bound only increments
the failure counter of `TrackJointSmoothing::doIterativeLowPassFilter` —
the pass always returns `true` to its caller (so `applySmoothing` never
aborts on it), and the filtered trajectory it produces is entirely
independent of the kinematic limits the bound is derived from: violations
are reported, never corrected and never fatal. -/
theorem doIterativeLowPassFilter_soft (σ : Type) (filterNew : ℚ → σ)
    (stepF : σ → ℚ → σ × ℚ) (numDof : Nat) (jidxs : List Nat)
    (limits limits2 : List TJLimits) (wps : List RobotState) :
    (doIterativeLowPassFilter filterNew stepF numDof jidxs limits wps).retval = true ∧
    (doIterativeLowPassFilter filterNew stepF numDof jidxs limits wps).wps =
      (doIterativeLowPassFilter filterNew stepF numDof jidxs limits2 wps).wps := by
  refine ⟨rfl, ?_⟩
  exact filterFold_wps_indep filterNew stepF limits limits2 jidxs
    (List.range numDof) (wps, 0) (wps, 0) rfl

end MoveItSmoothing.TrackJointSmoothing

namespace MoveItSmoothing.RuckigSmoothing

open MoveItSmoothing MoveItSmoothing.Examples

/-- Helper: the compiled value of the duration growth factor is 1 — the
C++ `size_t` conversion has truncated the literal `1.1`. -/
theorem duration_extension_fraction_eq_one : DURATION_EXTENSION_FRACTION = 1 := by
  decide

/-- Helper: the factor cast to the rationals is 1. -/
theorem duration_extension_fraction_cast :
    (DURATION_EXTENSION_FRACTION : ℚ) = 1 := by
  rw [duration_extension_fraction_eq_one]
  norm_num

/-- Helper: stretching the durations is the identity map — every duration
is multiplied by the truncated factor 1 (or left alone, for index 0). -/
theorem stretchDurations_eq_id (n : Nat) :
    ∀ (i : Nat) (ds : List ℚ), stretchDurations n i ds = ds := by
  intro i ds
  induction ds generalizing i with
  | nil => rfl
  | cons d rest ih =>
    simp [stretchDurations, duration_extension_fraction_cast, ih]

/-- Helper: the de-rating loop can only deliver a solver-produced status:
if its entry status is not `Working` and the solver never reports
`Working`, the exit status is not `Working` either. -/
theorem derateLoop_result_ne (solver : RuckigSolver) (timestep : ℚ)
    (numDof : Nat) (idx : List Nat) (prev : RobotState)
    (hfail : ∀ i, (solver i).1 ≠ RuckigResult.Working) :
    ∀ (fuel : Nat) (s : DerateState), s.result ≠ RuckigResult.Working →
      ((derateLoop solver timestep numDof idx prev fuel s).1).result ≠
        RuckigResult.Working := by
  intro fuel
  induction fuel with
  | zero => intro s hs; exact hs
  | succ n ih =>
    intro s hs
    simp only [derateLoop]
    split
    · split
      · exact ih _ hs
      · exact ih _ (hfail _)
    · exact hs

/-- Helper: every segment of a pass ends with a solver-produced status;
with a never-`Working` solver the segment's final status is never
`Working`. -/
theorem passSegment_result_ne (solver : RuckigSolver) (timestep : ℚ)
    (numDof : Nat) (idx : List Nat) (innerFuel : Nat)
    (hfail : ∀ i, (solver i).1 ≠ RuckigResult.Working)
    (s : PassState) (w : Nat) :
    (passSegment solver timestep numDof idx innerFuel s w).result ≠
      RuckigResult.Working := by
  simp only [passSegment]
  exact derateLoop_result_ne solver timestep numDof idx _ hfail innerFuel _ (hfail _)

/-- Helper: a fold whose step always establishes a predicate delivers the
predicate whenever the list is nonempty. -/
theorem foldl_pred_holds {α : Type} {β : Type} (f : α → β → α) (p : α → Prop)
    (hf : ∀ s w, p (f s w)) :
    ∀ (l : List β) (s : α), l ≠ [] → p (l.foldl f s) := by
  intro l
  induction l with
  | nil => intro s h; exact absurd rfl h
  | cons w ws ih =>
    intro s _
    cases ws with
    | nil => simpa using hf s w
    | cons w2 ws2 =>
      rw [List.foldl_cons]
      exact ih (f s w) (by simp)

/-- Helper: a full pass over at least one segment ends with a status the
solver produced; with a never-`Working` solver it is not `Working`. -/
theorem smoothingPass_result_ne (solver : RuckigSolver) (timestep : ℚ)
    (numDof : Nat) (idx : List Nat) (innerFuel numWaypoints : Nat)
    (hfail : ∀ i, (solver i).1 ≠ RuckigResult.Working)
    (hW : 2 ≤ numWaypoints) (wps : List RobotState) (inp : RuckigInput)
    (out : RuckigOutput) (r : RuckigResult) :
    (smoothingPass solver timestep numDof idx innerFuel numWaypoints
      wps inp out r).result ≠ RuckigResult.Working := by
  have hne : List.range (numWaypoints - 1) ≠ [] := by
    intro h
    rw [List.range_eq_nil] at h
    omega
  exact foldl_pred_holds (passSegment solver timestep numDof idx innerFuel)
    (fun s => s.result ≠ RuckigResult.Working)
    (passSegment_result_ne solver timestep numDof idx innerFuel hfail)
    (List.range (numWaypoints - 1)) _ hne

/-- Helper: the attempt counter of the retry loop never exceeds its
budget. -/
theorem retryLoop_attempts_le (solver : RuckigSolver) (timestep : ℚ)
    (numDof : Nat) (idx : List Nat) (innerFuel numWaypoints : Nat)
    (origCopy : RobotTrajectory) :
    ∀ (budget : Nat) (t : RobotTrajectory) (inp : RuckigInput)
      (out : RuckigOutput) (r : RuckigResult),
      (retryLoop solver timestep numDof idx innerFuel numWaypoints origCopy
        budget t inp out r).2.2 ≤ budget := by
  intro budget
  induction budget with
  | zero => intro t inp out r; exact Nat.le_refl 0
  | succ b ih =>
    intro t inp out r
    simp only [retryLoop]
    split
    · exact Nat.zero_le _
    · exact Nat.succ_le_succ (ih _ _ _ _)

/-- Helper: with a never-`Working` solver and at least two waypoints, the
retry loop spends its whole budget, ends on a non-`Working` status, and
leaves the trajectory equal to the saved copy with the (truncated, hence
no-op) duration stretch applied once. -/
theorem retryLoop_all_fail (solver : RuckigSolver) (timestep : ℚ)
    (numDof : Nat) (idx : List Nat) (innerFuel numWaypoints : Nat)
    (origCopy : RobotTrajectory)
    (hfail : ∀ i, (solver i).1 ≠ RuckigResult.Working)
    (hW : 2 ≤ numWaypoints) :
    ∀ (budget : Nat), 1 ≤ budget →
      ∀ (t : RobotTrajectory) (inp : RuckigInput) (out : RuckigOutput)
        (r : RuckigResult),
      (retryLoop solver timestep numDof idx innerFuel numWaypoints origCopy
        budget t inp out r).1 =
        ⟨origCopy.group, origCopy.waypoints,
          stretchDurations numWaypoints 0 origCopy.durations⟩ ∧
      (retryLoop solver timestep numDof idx innerFuel numWaypoints origCopy
        budget t inp out r).2.2 = budget ∧
      (retryLoop solver timestep numDof idx innerFuel numWaypoints origCopy
        budget t inp out r).2.1 ≠ RuckigResult.Working := by
  intro budget
  induction budget with
  | zero => intro h; omega
  | succ b ih =>
    intro _ t inp out r
    have hps := smoothingPass_result_ne solver timestep numDof idx innerFuel
      numWaypoints hfail hW t.waypoints inp out r
    simp only [retryLoop]
    rw [if_neg hps]
    cases b with
    | zero => exact ⟨rfl, rfl, hps⟩
    | succ b2 =>
      obtain ⟨h1, h2, h3⟩ := ih (Nat.succ_le_succ (Nat.zero_le b2)) _ _ _ _
      exact ⟨h1, by rw [h2], h3⟩

end MoveItSmoothing.RuckigSmoothing

namespace MoveItSmoothing.RuckigSmoothing

open MoveItSmoothing MoveItSmoothing.Examples

/-- Helper: `failSolver` never reports `Working`. -/
theorem failSolver_never_working : ∀ i, (failSolver i).1 ≠ RuckigResult.Working := by
  intro i
  simp [failSolver]

/-- Helper: closed form of `applySmoothing` when every solver call fails:
the call reports failure, spends the whole retry budget, and hands back the
unwound original waypoints with the original durations (the duration
stretch multiplies by the truncated factor 1). -/
theorem applySmoothing_all_fail (solver : RuckigSolver)
    (unwind : List RobotState → List RobotState) (innerFuel : Nat)
    (traj : RobotTrajectory) (v a : ℚ)
    (hg : traj.group.isSome = true) (h2 : 2 ≤ traj.waypoints.length)
    (hfail : ∀ i, (solver i).1 ≠ RuckigResult.Working) :
    (applySmoothing solver unwind innerFuel traj v a).success = false ∧
    (applySmoothing solver unwind innerFuel traj v a).attempts =
      MAX_DURATION_EXTENSION_ATTEMPTS ∧
    (applySmoothing solver unwind innerFuel traj v a).traj.waypoints =
      unwind traj.waypoints ∧
    (applySmoothing solver unwind innerFuel traj v a).traj.durations =
      traj.durations := by
  obtain ⟨gopt, wps, durs⟩ := traj
  cases gopt with
  | none => simp at hg
  | some g =>
    have h2a : 2 ≤ wps.length := by simpa using h2
    have h2b : ¬ wps.length < 2 := by omega
    simp only [applySmoothing]
    rw [if_neg h2b]
    obtain ⟨r1, r2, r3⟩ :=
      retryLoop_all_fail solver
        (averageSegmentDuration ⟨some g, unwind wps, durs⟩) g.idx.length g.idx
        innerFuel wps.length ⟨some g, unwind wps, durs⟩ hfail h2a
        MAX_DURATION_EXTENSION_ATTEMPTS (by decide)
        ⟨some g, unwind wps, durs⟩
        (initRuckigState
          (applyKinematicLimits (emptyRuckigInput g.idx.length) g.bounds v a g.idx.length)
          ((⟨some g, unwind wps, durs⟩ : RobotTrajectory).waypoints.getD 0 ⟨[], [], []⟩)
          g.idx.length g.idx).1
        (initRuckigState
          (applyKinematicLimits (emptyRuckigInput g.idx.length) g.bounds v a g.idx.length)
          ((⟨some g, unwind wps, durs⟩ : RobotTrajectory).waypoints.getD 0 ⟨[], [], []⟩)
          g.idx.length g.idx).2
        (RuckigResult.Error 0)
    refine ⟨?_, ?_, ?_, ?_⟩
    · simpa using r3
    · simpa using r2
    · simp only [r1]
    · simp only [r1, stretchDurations_eq_id]

/-- Claim C1 (code evaluated at the failing input): the duration-extension
factor compiled into the binary is 1, and on a two-waypoint trajectory with
a solver that fails every call, `applySmoothing` spends all five attempts
while the durations fed to every retry remain exactly the original ones —
they are never stretched by 1.1, let alone by 1.1 to the n-th power.  Two
slips combine: the `size_t` truncation of the factor 1.1, and the restore
from the single pre-loop copy that resets the durations before each
stretch. -/
theorem duration_extension_never_grows :
    DURATION_EXTENSION_FRACTION = 1 ∧
    (applySmoothing failSolver id 1 twoPointTraj 1 1).attempts =
      MAX_DURATION_EXTENSION_ATTEMPTS ∧
    (applySmoothing failSolver id 1 twoPointTraj 1 1).traj.durations =
      twoPointTraj.durations ∧
    (applySmoothing failSolver id 1 twoPointTraj 1 1).success = false := by
  obtain ⟨hs, ha, hw, hd⟩ :=
    applySmoothing_all_fail failSolver id 1 twoPointTraj 1 1 rfl (by decide)
      failSolver_never_working
  exact ⟨duration_extension_fraction_eq_one, ha, hd, hs⟩

/-- Claim C2 (code evaluated at the failing input): for a segment whose
start and target waypoints coincide while lag is detected and the target
velocity magnitude (here 1) is above the 0.01 floor, the velocity de-rating
loop never terminates: the identical-waypoint branch `continue`s without
changing any loop variable, so the loop state is a fixpoint and no amount
of fuel makes the loop exit through its guard — contradicting the claimed
iteration bound, and no target velocity is ever multiplied by 0.9. -/
theorem derate_loop_spins_on_identical_waypoints :
    ∀ fuel : Nat,
      derateLoop failSolver 1 1 [0] zeroState fuel duplicateDerateState =
        (duplicateDerateState, false) := by
  have hr : List.range 1 = [0] := rfl
  have h1 : derateCond 1 duplicateDerateState = true := by
    simp only [derateCond, duplicateDerateState, targetVelocityMagnitudeSq,
      MINIMUM_VELOCITY_MAGNITUDE, hr, List.map_cons, List.map_nil,
      List.sum_cons, List.sum_nil, List.getD_cons_zero, Bool.true_and]
    norm_num
  have h2 : checkForIdenticalWaypoints zeroState duplicateDerateState.next 1 [0] = true := by
    simp [checkForIdenticalWaypoints, duplicateDerateState, zeroState,
      IDENTICAL_POSITION_EPSILON]
  intro fuel
  induction fuel with
  | zero => rfl
  | succ n ih =>
    simp only [derateLoop]
    rw [if_pos h1, if_pos h2]
    exact ih

/-- Claim C3: the duration-extension retry loop is bounded — the attempt
counter never exceeds the budget of 5 for any solver whatsoever — and for a
trajectory that remains infeasible (a solver that never reports `Working`)
`applySmoothing` performs exactly `MAX_DURATION_EXTENSION_ATTEMPTS = 5`
duration-extension attempts and then returns failure. -/
theorem applySmoothing_retry_bound (solver : RuckigSolver)
    (unwind : List RobotState → List RobotState) (innerFuel : Nat)
    (traj : RobotTrajectory) (v a : ℚ) :
    (applySmoothing solver unwind innerFuel traj v a).attempts ≤
      MAX_DURATION_EXTENSION_ATTEMPTS ∧
    (traj.group.isSome = true → 2 ≤ traj.waypoints.length →
      (∀ i, (solver i).1 ≠ RuckigResult.Working) →
      (applySmoothing solver unwind innerFuel traj v a).attempts =
        MAX_DURATION_EXTENSION_ATTEMPTS ∧
      (applySmoothing solver unwind innerFuel traj v a).success = false) := by
  constructor
  · obtain ⟨gopt, wps, durs⟩ := traj
    cases gopt with
    | none => simp [applySmoothing]
    | some g =>
      by_cases h2b : wps.length < 2
      · simp only [applySmoothing]
        rw [if_pos h2b]
        exact Nat.zero_le _
      · simp only [applySmoothing]
        rw [if_neg h2b]
        exact retryLoop_attempts_le _ _ _ _ _ _ _ _ _ _ _ _
  · intro hg h2 hfail
    obtain ⟨hs, ha, -, -⟩ :=
      applySmoothing_all_fail solver unwind innerFuel traj v a hg h2 hfail
    exact ⟨ha, hs⟩

/-- Witness for `applySmoothing_retry_bound`: at the concrete two-waypoint
trajectory and the always-failing solver, the hypotheses hold and the call
spends exactly five attempts before failing. -/
theorem applySmoothing_retry_bound_witness :
    (applySmoothing failSolver id 1 twoPointTraj 1 1).attempts ≤
      MAX_DURATION_EXTENSION_ATTEMPTS ∧
    (applySmoothing failSolver id 1 twoPointTraj 1 1).attempts =
      MAX_DURATION_EXTENSION_ATTEMPTS ∧
    (applySmoothing failSolver id 1 twoPointTraj 1 1).success = false :=
  ⟨(applySmoothing_retry_bound failSolver id 1 twoPointTraj 1 1).1,
   (applySmoothing_retry_bound failSolver id 1 twoPointTraj 1 1).2 rfl (by decide)
     failSolver_never_working⟩

/-- Claim C4: for a trajectory with a joint group and at least two
waypoints, `applySmoothing` returns success exactly when the solver's
last-reported status — the one left by the final segment of the last pass —
is `Working`; any other final status yields a failure return. -/
theorem applySmoothing_success_iff_final_working (solver : RuckigSolver)
    (unwind : List RobotState → List RobotState) (innerFuel : Nat)
    (traj : RobotTrajectory) (v a : ℚ)
    (hg : traj.group.isSome = true) (h2 : 2 ≤ traj.waypoints.length) :
    (applySmoothing solver unwind innerFuel traj v a).success = true ↔
      (applySmoothing solver unwind innerFuel traj v a).result =
        some RuckigResult.Working := by
  obtain ⟨gopt, wps, durs⟩ := traj
  cases gopt with
  | none => simp at hg
  | some g =>
    have h2b : ¬ wps.length < 2 := by
      have : 2 ≤ wps.length := by simpa using h2
      omega
    simp only [applySmoothing]
    rw [if_neg h2b]
    simp

/-- Witness for `applySmoothing_success_iff_final_working`: the concrete
trajectory with the always-`Working` solver satisfies both hypotheses, and
the equivalence is inhabited there. -/
theorem applySmoothing_success_iff_final_working_witness :
    (applySmoothing workSolver id 1 twoPointTraj 1 1).success = true ↔
      (applySmoothing workSolver id 1 twoPointTraj 1 1).result =
        some RuckigResult.Working :=
  applySmoothing_success_iff_final_working workSolver id 1 twoPointTraj 1 1 rfl
    (by decide)

/-- Counterexample to claim C6: with the always-failing solver on the
concrete two-waypoint trajectory, the failed call hands back the original
waypoints — the trajectory IS rolled back to its pre-smoothing contents —
whereas the smoothing pass the attempts actually computed (shown in the
third conjunct, identical for every attempt because the solver is constant)
had moved the second waypoint to position 5.  The claim that the trajectory
is left in its last failed smoothed form is false on the code. -/
theorem applySmoothing_failure_not_left_smoothed :
    (applySmoothing failSolver id 1 twoPointTraj 1 1).success = false ∧
    (applySmoothing failSolver id 1 twoPointTraj 1 1).traj.waypoints =
      twoPointTraj.waypoints ∧
    (smoothingPass failSolver 1 1 [0] 1 2 twoPointTraj.waypoints seedInput
      seedOutput (RuckigResult.Error 0)).wps ≠ twoPointTraj.waypoints := by
  obtain ⟨hs, -, hw, -⟩ :=
    applySmoothing_all_fail failSolver id 1 twoPointTraj 1 1 rfl (by decide)
      failSolver_never_working
  refine ⟨hs, hw, ?_⟩
  decide

/-- Claim C6 as amended: when the retry budget is exhausted without a
`Working` status, `applySmoothing` reports failure and the trajectory is
left restored from the saved pre-loop copy with the (truncated, hence
no-op) duration stretch applied — that is, rolled back to the unwound
original waypoints and the original durations, not left in its last failed
smoothed form. -/
theorem applySmoothing_failure_restores_trajectory (solver : RuckigSolver)
    (unwind : List RobotState → List RobotState) (innerFuel : Nat)
    (traj : RobotTrajectory) (v a : ℚ)
    (hg : traj.group.isSome = true) (h2 : 2 ≤ traj.waypoints.length)
    (hfail : ∀ i, (solver i).1 ≠ RuckigResult.Working) :
    (applySmoothing solver unwind innerFuel traj v a).success = false ∧
    (applySmoothing solver unwind innerFuel traj v a).traj.waypoints =
      unwind traj.waypoints ∧
    (applySmoothing solver unwind innerFuel traj v a).traj.durations =
      traj.durations := by
  obtain ⟨hs, -, hw, hd⟩ :=
    applySmoothing_all_fail solver unwind innerFuel traj v a hg h2 hfail
  exact ⟨hs, hw, hd⟩

/-- Witness for `applySmoothing_failure_restores_trajectory`: at the
concrete failing scenario, the failed call reports `false` and leaves the
original waypoints and durations. -/
theorem applySmoothing_failure_restores_trajectory_witness :
    (applySmoothing failSolver id 1 twoPointTraj 1 1).success = false ∧
    (applySmoothing failSolver id 1 twoPointTraj 1 1).traj.waypoints =
      id twoPointTraj.waypoints ∧
    (applySmoothing failSolver id 1 twoPointTraj 1 1).traj.durations =
      twoPointTraj.durations :=
  applySmoothing_failure_restores_trajectory failSolver id 1 twoPointTraj 1 1 rfl
    (by decide) failSolver_never_working

end MoveItSmoothing.RuckigSmoothing
